import Mathlib

/-!
Shallow embedding of the scheduling and dispatch core of
`whatsapp_automation.py` (class `WhatsAppBot`), together with theorems
settling the specification claims about it.

Modelling conventions:
* Python dictionaries read with `d.get(key, default)` become structures
  whose optional fields are `Option` values read with `Option.getD`;
  fields whose only read site supplies the default `[]` are plain lists.
* The local filesystem consulted by `os.path.exists` is an explicit
  parameter `fs : List String` listing the existing paths.
* External transport calls (`pywhatkit`) are recorded in a trace
  (`List TransportCall`) instead of being performed; each dispatch
  function returns its outcome together with the trace it produced.
* Outcome labels use the DispatchOutcome vocabulary (`Sent`, `Skipped`,
  `Failed`, and `NoOp` for a branch that signals nothing at all); the
  source signals these situations through logging and early returns.
-/

/-- Outcome of processing one (target, message) pair.  `NoOp` marks the
branch where the source falls through its `if`/`elif` chain doing
nothing at all (no transport call, no log, no error). -/
inductive DispatchOutcome where
  | Sent : DispatchOutcome
  | Skipped : String → DispatchOutcome
  | Failed : String → DispatchOutcome
  | NoOp : DispatchOutcome
deriving DecidableEq, Repr

/-- Record of one call across the Transport boundary (`pywhatkit`). -/
inductive TransportCall where
  | sendText : String → String → Nat → Bool → TransportCall
  | sendImage : String → String → Option String → Nat → Bool → TransportCall
  | sendGroupText : String → String → Nat → Bool → TransportCall
deriving DecidableEq, Repr

/-- One message entry of the configuration.  Mirrors the Python dict:
every key may be absent, and the reading code supplies the defaults
(`type` defaults to `"text"`, the string fields to `""`). -/
structure MessageInfo where
  type : Option String := none
  content : Option String := none
  time : Option String := none
  image_path : Option String := none
  caption : Option String := none
deriving DecidableEq, Repr

/-- One contact entry (used both for `contacts.personal` entries, which
may carry `phone`, and for `contacts.groups` entries, which do not).
`messages` mirrors `contact.get("messages", [])`, folding the default. -/
structure ContactInfo where
  name : Option String := none
  phone : Option String := none
  messages : List MessageInfo := []
deriving DecidableEq, Repr

/-- In-memory configuration.  Mirrors the parsed YAML dict with the
read-site defaults folded in: `personal` and `groups` are
`config.get("contacts", ...).get("personal" | "groups", [])`, and the
settings fields are `config.get("settings", ...).get(..., default)` with
the defaults used by the source
(`wait_time` 20, `close_tab` true, the four image formats). -/
structure Config where
  personal : List ContactInfo := []
  groups : List ContactInfo := []
  wait_time : Nat := 20
  close_tab : Bool := true
  image_formats : List String := [".jpg", ".jpeg", ".png", ".gif"]
deriving DecidableEq, Repr

/-- Embeds the Python `s.replace(c, "")` for a one-character pattern:
every occurrence of `c` is removed, everything else kept in order. -/
def removeChar (s : String) (c : Char) : String :=
  String.mk (s.data.filter (fun a => a ≠ c))

/-- Embeds `WhatsAppBot.validate_phone_number`
(src/whatsapp_automation.py lines 107-117):
`phone.replace(" ", "").replace("-", "").replace("(", "").replace(")", "")`,
then a warning is logged when the result does not start with a plus
sign, but the cleaned string is returned unchanged on both branches. -/
def validate_phone_number (phone : String) : String :=
  let phone := removeChar (removeChar (removeChar (removeChar phone ' ') '-') '(') ')'
  if phone.startsWith "+" then phone else phone

/-- Embeds Python `str.lower` on the ASCII range (the extensions the
program compares are ASCII). -/
def strLower (s : String) : String :=
  String.mk (s.data.map Char.toLower)

/-- Embeds `os.path.splitext(path)[1]` (POSIX rules): the extension is
the suffix of the basename from its last dot, except that a dot with
only dots before it inside the basename yields no extension. -/
def splitextExt (path : String) : String :=
  let basename := (path.data.reverse.takeWhile (fun c => c ≠ '/')).reverse
  let afterDot := basename.reverse.takeWhile (fun c => c ≠ '.')
  if afterDot.length = basename.length then
    ""
  else
    let stem := basename.take (basename.length - afterDot.length - 1)
    if stem.any (fun c => c ≠ '.') then String.mk ('.' :: afterDot.reverse) else ""

/-- Embeds `WhatsAppBot.validate_image_path`
(src/whatsapp_automation.py lines 119-132): false when the path does
not exist; otherwise the extension of the path is lowercased and looked up
verbatim in `settings.image_formats` (the formats list itself is NOT
lowercased by the source). -/
def validate_image_path (fs : List String) (config : Config) (image_path : String) : Bool :=
  if fs.contains image_path then
    let file_extension := strLower (splitextExt image_path)
    if config.image_formats.contains file_extension then true else false
  else false

/-- Follows the words of the spec for `is_sendable_image` (kept separate from
the source embedding `validate_image_path` for comparison): true iff
the file exists and its extension is a member of the allowed set under
case-insensitive comparison. -/
def is_sendable_image_spec (fs : List String) (allowed : List String) (path : String) : Bool :=
  fs.contains path &&
    allowed.any (fun f => strLower f = strLower (splitextExt path))

/-- Embeds `WhatsAppBot.send_text_message`
(src/whatsapp_automation.py lines 134-154): the phone is normalized,
then one `kit.sendwhatmsg_instantly` transport call is made with the
configured wait time and tab-close flag.  The outcome is the one of the
non-raising path (a raising transport call is caught and logged). -/
def send_text_message (config : Config) (phone message : String) :
    DispatchOutcome × List TransportCall :=
  let phone := validate_phone_number phone
  (DispatchOutcome.Sent,
    [TransportCall.sendText phone message config.wait_time config.close_tab])

/-- Embeds `WhatsAppBot.send_image_message`
(src/whatsapp_automation.py lines 156-187): when `validate_image_path`
fails the function returns at once with no transport call (the source
logs the error inside `validate_image_path`); otherwise the phone is
normalized and one `kit.sendwhats_image` call is made, with the caption
when the caption string is non-empty (Python truthiness) and without it
otherwise. -/
def send_image_message (fs : List String) (config : Config)
    (phone image_path caption : String) : DispatchOutcome × List TransportCall :=
  if ¬ validate_image_path fs config image_path then
    (DispatchOutcome.Failed "image not eligible", [])
  else
    let phone := validate_phone_number phone
    if caption ≠ "" then
      (DispatchOutcome.Sent,
        [TransportCall.sendImage phone image_path (some caption)
          config.wait_time config.close_tab])
    else
      (DispatchOutcome.Sent,
        [TransportCall.sendImage phone image_path none
          config.wait_time config.close_tab])

/-- Embeds `WhatsAppBot.send_group_message`
(src/whatsapp_automation.py lines 189-207): one
`kit.sendwhatmsg_to_group_instantly` transport call. -/
def send_group_message (config : Config) (group_name message : String) :
    DispatchOutcome × List TransportCall :=
  (DispatchOutcome.Sent,
    [TransportCall.sendGroupText group_name message config.wait_time config.close_tab])

/-- Embeds `WhatsAppBot.process_message`
(src/whatsapp_automation.py lines 209-236).  The `is_group` flag picks
the group or individual branch; `message_type` defaults to `"text"`.
For a group image the source only logs a warning and sends nothing
(`Skipped` in the outcome vocabulary of the spec); a message type that is
neither `"text"` nor `"image"` falls through the `elif` chain with no
action at all (`NoOp`). -/
def process_message (fs : List String) (config : Config)
    (contact_info : ContactInfo) (message_info : MessageInfo) (is_group : Bool) :
    DispatchOutcome × List TransportCall :=
  let message_type := message_info.type.getD "text"
  if is_group then
    let contact_identifier := contact_info.name.getD "Unknown Group"
    if message_type = "text" then
      send_group_message config contact_identifier (message_info.content.getD "")
    else if message_type = "image" then
      (DispatchOutcome.Skipped "group image unsupported", [])
    else
      (DispatchOutcome.NoOp, [])
  else
    let phone := contact_info.phone.getD ""
    if message_type = "text" then
      send_text_message config phone (message_info.content.getD "")
    else if message_type = "image" then
      send_image_message fs config phone
        (message_info.image_path.getD "") (message_info.caption.getD "")
    else
      (DispatchOutcome.NoOp, [])

/-- One registered scheduler entry: the closure
`schedule.every().day.at(time_str).do(process_message, contact, message, is_group)`
together with the time it was registered at. -/
structure Job where
  contact : ContactInfo
  message : MessageInfo
  is_group : Bool
  time_of_day : String
deriving DecidableEq, Repr

/-- Embeds `WhatsAppBot.schedule_messages`
(src/whatsapp_automation.py lines 238-268).  A falsy configuration
(`none`, the empty dict) registers nothing; otherwise the message lists of the
personal contacts are walked in order, then those of the groups, and a job
is registered exactly for the entries whose `time` value is present and
non-empty (`if time_str:`); other entries are passed over silently. -/
def schedule_messages (config : Option Config) : List Job :=
  match config with
  | none => []
  | some cfg =>
      (cfg.personal.flatMap fun contact =>
        contact.messages.filterMap fun message =>
          let time_str := message.time.getD ""
          if time_str ≠ "" then
            some { contact := contact, message := message,
                   is_group := false, time_of_day := time_str }
          else none)
      ++
      (cfg.groups.flatMap fun group =>
        group.messages.filterMap fun message =>
          let time_str := message.time.getD ""
          if time_str ≠ "" then
            some { contact := group, message := message,
                   is_group := true, time_of_day := time_str }
          else none)

/-- Embeds the dictionary written by `WhatsAppBot.create_sample_config`
(src/whatsapp_automation.py lines 57-105): one personal contact with
one text message, one group with a text and an image message, and the
default settings block. -/
def sample_config : Config :=
  { personal :=
      [{ name := some "John Doe", phone := some "+1234567890",
         messages :=
           [{ type := some "text",
              content := some "Good morning! Have a great day!",
              time := some "09:00" }] }],
    groups :=
      [{ name := some "Family Group",
         messages :=
           [{ type := some "text",
              content := some "Good morning everyone!",
              time := some "08:30" },
            { type := some "image",
              image_path := some "images/motivational_quote.jpg",
              caption := some "Daily motivation!",
              time := some "18:00" }] }],
    wait_time := 20, close_tab := true,
    image_formats := [".jpg", ".jpeg", ".png", ".gif"] }

/-- State of the configuration source when the bot starts: the file is
present and parses to a (possibly falsy) document, it is absent, or it
is present but malformed YAML. -/
inductive ConfigSource where
  | present : Option Config → ConfigSource
  | absent : ConfigSource
  | malformed : ConfigSource
deriving DecidableEq, Repr

/-- Embeds `WhatsAppBot.load_config` (src/whatsapp_automation.py lines
42-55).  Returns the in-memory configuration for the run together with
the sample configuration written to disk, if any: a missing file calls
`create_sample_config` and yields the empty dict (`none`); malformed
YAML yields the empty dict without writing anything. -/
def load_config : ConfigSource → Option Config × Option Config
  | ConfigSource.present c => (c, none)
  | ConfigSource.absent => (none, some sample_config)
  | ConfigSource.malformed => (none, none)

/-- Embeds the scheduling part of `WhatsAppBot.run_scheduler`
(src/whatsapp_automation.py lines 270-280): with a falsy configuration
the method returns before `schedule_messages`, so no job is registered;
otherwise the jobs of `schedule_messages` are registered and the poll
loop starts.  The value is the list of registered jobs for the run. -/
def run_scheduler (src : ConfigSource) : List Job :=
  let config := (load_config src).1
  match config with
  | none => []
  | some cfg => schedule_messages (some cfg)

/-- Modelled from the spec: per-job state of the third-party `schedule`
library (not part of the sources of this repository), which
the loop of `run_scheduler` drives with `schedule.run_pending()` once a
minute.  Time is counted in whole minutes; `time_of_day` is the daily fire
minute of the job (spec: minute-resolution `HH:MM`) and `next_run` the
absolute minute the job next fires at. -/
structure SchedJob where
  time_of_day : Nat
  next_run : Nat
deriving DecidableEq, Repr

/-- Modelled from the spec: how a fired daily job picks its next run
minute — today at `time_of_day`, pushed to tomorrow when that minute
has already passed (the per-day fired state thus resets on date
rollover). -/
def nextRunAfter (now time_of_day : Nat) : Nat :=
  let todayAt := now / 1440 * 1440 + time_of_day
  if todayAt ≤ now then todayAt + 1440 else todayAt

/-- Modelled from the spec: one evaluation of a single job inside
`schedule.run_pending()` (the `tick` of the scheduler in the spec): the job fires iff
its `next_run` minute has been reached, and firing atomically moves
`next_run` to the occurrence on the next day. -/
def runPendingJob (now : Nat) (j : SchedJob) : Bool × SchedJob :=
  if j.next_run ≤ now then
    (true, { j with next_run := nextRunAfter now j.time_of_day })
  else
    (false, j)

/-- Modelled from the spec: one `schedule.run_pending()` pass over the
whole job list, returning the fired flags in configuration order
together with the updated job states. -/
def run_pending (now : Nat) (jobs : List SchedJob) : List (Bool × SchedJob) :=
  jobs.map (runPendingJob now)

/-- Condition under which `schedule_messages` registers a job for a
message entry (the Python truthiness test `if time_str:` on
`message.get("time", "")`): the `time` value is present and non-empty. -/
def hasTime (m : MessageInfo) : Bool := m.time.getD "" ≠ ""

/- Helper lemmas shared by the claim theorems. -/

/-- Removing the four separator characters one after the other is the
same as filtering all of them out in a single pass. -/
theorem validate_phone_eq_filter (phone : String) :
    validate_phone_number phone =
      String.mk (phone.data.filter
        (fun c => c ∉ ([' ', '-', '(', ')'] : List Char))) := by
  unfold validate_phone_number removeChar
  simp only [ite_self]
  congr 1
  simp only [List.filter_filter]
  apply List.filter_congr
  intro a _
  by_cases h1 : a = ' ' <;> by_cases h2 : a = '-' <;> by_cases h3 : a = '(' <;>
    by_cases h4 : a = ')' <;> simp [h1, h2, h3, h4]

/-- Congruence for `List.flatMap` under a pointwise hypothesis. -/
theorem flatMap_congr_local {α β : Type} (l : List α) (f g : α → List β)
    (h : ∀ a ∈ l, f a = g a) : l.flatMap f = l.flatMap g := by
  induction l with
  | nil => rfl
  | cons a l ih =>
      simp [List.flatMap_cons, h a (List.mem_cons_self a l),
        ih (fun b hb => h b (List.mem_cons_of_mem a hb))]

/-- The job-building `filterMap` of `schedule_messages` keeps exactly
the entries satisfying `hasTime`, in order. -/
theorem filterMap_time_eq_filter_map {β : Type} (g : MessageInfo → β)
    (l : List MessageInfo) :
    (l.filterMap fun m => if m.time.getD "" ≠ "" then some (g m) else none) =
      (l.filter hasTime).map g := by
  induction l with
  | nil => rfl
  | cons m l ih =>
      by_cases hm : m.time.getD "" = ""
      · rw [List.filterMap_cons, if_neg (fun hc => hc hm), List.filter_cons,
          if_neg (by simp [hasTime, hm]), ih]
      · rw [List.filterMap_cons, if_pos hm, List.filter_cons,
          if_pos (by simp [hasTime, hm]), List.map_cons, ih]

/-- When every entry of the list has a non-empty time, the job-building
`filterMap` of `schedule_messages` is a plain `map`. -/
theorem filterMap_time_eq_map {β : Type} (g : MessageInfo → β)
    (l : List MessageInfo) (h : ∀ m ∈ l, m.time.getD "" ≠ "") :
    (l.filterMap fun m => if m.time.getD "" ≠ "" then some (g m) else none) =
      l.map g := by
  induction l with
  | nil => rfl
  | cons m l ih =>
      rw [List.filterMap_cons, if_pos (h m (List.mem_cons_self m l)),
        ih (fun b hb => h b (List.mem_cons_of_mem m hb)), List.map_cons]

/-- Claim C1: for every job and every date, evaluating the scheduler
twice within the same minute of the same date fires that job at most
once, and a job fired at its scheduled minute `t` on day `D` fires
again at minute `t` on day `D + 1` (the per-day fired state resets on
date rollover). -/
theorem scheduler_fires_at_most_once_per_day_and_resets_on_rollover
    (t D : Nat) (j : SchedJob) (ht : t < 1440) (hjt : j.time_of_day = t)
    (hfire : (runPendingJob (D * 1440 + t) j).1 = true) :
    (runPendingJob (D * 1440 + t) ((runPendingJob (D * 1440 + t) j).2)).1 = false ∧
    (runPendingJob ((D + 1) * 1440 + t) ((runPendingJob (D * 1440 + t) j).2)).1 = true := by
  have hdiv : (D * 1440 + t) / 1440 = D := by omega
  have hdue : j.next_run ≤ D * 1440 + t := by
    by_contra hc
    unfold runPendingJob at hfire
    simp [hc] at hfire
  have hnra : nextRunAfter (D * 1440 + t) t = D * 1440 + t + 1440 := by
    simp only [nextRunAfter, hdiv]
    rw [if_pos (Nat.le_refl _)]
  have hj2 : (runPendingJob (D * 1440 + t) j).2 =
      { j with next_run := D * 1440 + t + 1440 } := by
    unfold runPendingJob
    simp [hdue, hjt, hnra]
  rw [hj2]
  have hlater : ¬ (D * 1440 + t + 1440 ≤ D * 1440 + t) := by omega
  have hnext : D * 1440 + t + 1440 ≤ (D + 1) * 1440 + t := by omega
  constructor
  · simp [runPendingJob, hlater]
  · simp [runPendingJob, hnext]

/-- Witness for claim C1: a job scheduled daily at minute 540 (09:00)
that fires at 09:00 of day 0 does not fire on a second evaluation in
the same minute, and fires again at 09:00 of day 1. -/
theorem scheduler_daily_firing_witness :
    (runPendingJob (0 * 1440 + 540)
      ((runPendingJob (0 * 1440 + 540) (SchedJob.mk 540 540)).2)).1 = false ∧
    (runPendingJob ((0 + 1) * 1440 + 540)
      ((runPendingJob (0 * 1440 + 540) (SchedJob.mk 540 540)).2)).1 = true :=
  scheduler_fires_at_most_once_per_day_and_resets_on_rollover 540 0
    (SchedJob.mk 540 540) (by decide) rfl (by decide)

/-- Claim C2: for every Group target paired with an image message, the
dispatcher skips with reason "group image unsupported" and the
transport trace is empty. -/
theorem group_image_skipped_without_transport
    (fs : List String) (config : Config) (contact : ContactInfo)
    (msg : MessageInfo) (himg : msg.type = some "image") :
    process_message fs config contact msg true =
      (DispatchOutcome.Skipped "group image unsupported", []) := by
  simp [process_message, himg]

/-- Witness for claim C2: the group image entry of the sample
configuration is skipped with zero transport calls. -/
theorem group_image_skipped_witness :
    process_message [] {} { name := some "Family Group" }
      { type := some "image", image_path := some "images/motivational_quote.jpg",
        caption := some "Daily motivation!", time := some "18:00" } true =
      (DispatchOutcome.Skipped "group image unsupported", []) :=
  group_image_skipped_without_transport [] {} { name := some "Family Group" }
    { type := some "image", image_path := some "images/motivational_quote.jpg",
      caption := some "Daily motivation!", time := some "18:00" } rfl

/-- Claim C3: for every Individual target paired with an image message,
an ineligible image yields the outcome Failed "image not eligible" with
an empty transport trace, and an eligible image yields exactly one
`send_image` transport call, carrying the caption iff the caption is
non-empty. -/
theorem individual_image_eligibility_gates_transport
    (fs : List String) (config : Config) (contact : ContactInfo)
    (msg : MessageInfo) (himg : msg.type = some "image") :
    (validate_image_path fs config (msg.image_path.getD "") = false →
      process_message fs config contact msg false =
        (DispatchOutcome.Failed "image not eligible", [])) ∧
    (validate_image_path fs config (msg.image_path.getD "") = true →
      process_message fs config contact msg false =
        (DispatchOutcome.Sent,
          [TransportCall.sendImage (validate_phone_number (contact.phone.getD ""))
            (msg.image_path.getD "")
            (if msg.caption.getD "" = "" then none else some (msg.caption.getD ""))
            config.wait_time config.close_tab])) := by
  constructor
  · intro hv
    simp [process_message, himg, send_image_message, hv]
  · intro hv
    by_cases hc : msg.caption.getD "" = "" <;>
      simp [process_message, himg, send_image_message, hv, hc]

/-- Witness for claim C3: an image entry whose file does not exist
fails with zero transport calls, and an existing eligible image is sent
with its caption through exactly one transport call (with the phone
normalized). -/
theorem individual_image_dispatch_witness :
    process_message [] {} { name := some "John Doe", phone := some "+1234567890" }
      { type := some "image", image_path := some "missing.jpg" } false =
      (DispatchOutcome.Failed "image not eligible", []) ∧
    process_message ["images/a.jpg"] {}
      { name := some "John Doe", phone := some "+1 234-567(890)" }
      { type := some "image", image_path := some "images/a.jpg",
        caption := some "hello" } false =
      (DispatchOutcome.Sent,
        [TransportCall.sendImage "+1234567890" "images/a.jpg" (some "hello") 20 true]) := by
  constructor
  · exact (individual_image_eligibility_gates_transport [] {}
      { name := some "John Doe", phone := some "+1234567890" }
      { type := some "image", image_path := some "missing.jpg" } rfl).1 rfl
  · have h := (individual_image_eligibility_gates_transport ["images/a.jpg"] {}
      { name := some "John Doe", phone := some "+1 234-567(890)" }
      { type := some "image", image_path := some "images/a.jpg",
        caption := some "hello" } rfl).2 (by decide)
    rw [h, validate_phone_eq_filter]
    decide

/-- Claim C4: for every configuration in which every message entry has
a non-empty time, `schedule_messages` registers exactly one job per
message entry, in configuration order with the personal targets before
the group targets, and the total job count is the total message count. -/
theorem build_jobs_one_job_per_message_entry (cfg : Config)
    (hp : ∀ c ∈ cfg.personal, ∀ m ∈ c.messages, m.time.getD "" ≠ "")
    (hg : ∀ g ∈ cfg.groups, ∀ m ∈ g.messages, m.time.getD "" ≠ "") :
    schedule_messages (some cfg) =
      (cfg.personal.flatMap fun c => c.messages.map fun m =>
        { contact := c, message := m, is_group := false,
          time_of_day := m.time.getD "" }) ++
      (cfg.groups.flatMap fun g => g.messages.map fun m =>
        { contact := g, message := m, is_group := true,
          time_of_day := m.time.getD "" }) ∧
    (schedule_messages (some cfg)).length =
      (cfg.personal.map fun c => c.messages.length).sum +
      (cfg.groups.map fun g => g.messages.length).sum := by
  have he : schedule_messages (some cfg) =
      (cfg.personal.flatMap fun c => c.messages.map fun m =>
        { contact := c, message := m, is_group := false,
          time_of_day := m.time.getD "" }) ++
      (cfg.groups.flatMap fun g => g.messages.map fun m =>
        { contact := g, message := m, is_group := true,
          time_of_day := m.time.getD "" }) := by
    simp only [schedule_messages]
    congr 1
    · exact flatMap_congr_local _ _ _ (fun c hc => filterMap_time_eq_map _ _ (hp c hc))
    · exact flatMap_congr_local _ _ _ (fun g hgm => filterMap_time_eq_map _ _ (hg g hgm))
  refine ⟨he, ?_⟩
  rw [he]
  simp [List.length_flatMap, Function.comp_def]

/-- Witness for claim C4: on the sample configuration (one personal
message, two group messages) exactly three jobs are registered, one
per entry, personal first. -/
theorem build_jobs_sample_config_witness :
    schedule_messages (some sample_config) =
      (sample_config.personal.flatMap fun c => c.messages.map fun m =>
        { contact := c, message := m, is_group := false,
          time_of_day := m.time.getD "" }) ++
      (sample_config.groups.flatMap fun g => g.messages.map fun m =>
        { contact := g, message := m, is_group := true,
          time_of_day := m.time.getD "" }) ∧
    (schedule_messages (some sample_config)).length =
      (sample_config.personal.map fun c => c.messages.length).sum +
      (sample_config.groups.map fun g => g.messages.length).sum :=
  build_jobs_one_job_per_message_entry sample_config (by decide) (by decide)

/-- Counterexample to claim C5: for the existing file "a.jpg" and the
allowed set [".JPG"], the extension of the path is a member of the
allowed set under case-insensitive comparison (as witnessed through
`is_sendable_image_spec`), yet `validate_image_path` returns false:
the source lowercases only the extension of the path and compares
against the configured set verbatim. -/
theorem image_formats_case_sensitive_counterexample :
    validate_image_path ["a.jpg"] { image_formats := [".JPG"] } "a.jpg" = false ∧
    is_sendable_image_spec ["a.jpg"] [".JPG"] "a.jpg" = true ∧
    (["a.jpg"] : List String).contains "a.jpg" = true ∧
    strLower (splitextExt "a.jpg") = strLower ".JPG" := by
  refine ⟨rfl, ?_, rfl, rfl⟩
  decide

/-- Claim C5 (amended): `validate_image_path` returns true iff the file
exists and the LOWERCASED extension of the path is verbatim a member of
the allowed list; the comparison is case-insensitive in the case of the
path but case-sensitive in the case of the allowed entries. -/
theorem validate_image_path_exists_and_lowered_extension_member
    (fs : List String) (config : Config) (path : String) :
    validate_image_path fs config path = true ↔
      fs.contains path = true ∧
      config.image_formats.contains (strLower (splitextExt path)) = true := by
  unfold validate_image_path
  by_cases h1 : fs.contains path <;>
    by_cases h2 : config.image_formats.contains (strLower (splitextExt path)) <;>
    simp [h1, h2]

/-- Claim C6: for every input string, `validate_phone_number` removes
exactly the space, hyphen and parenthesis characters and preserves all
remaining characters (all digits and any leading plus sign included) in
their original order; no other reformatting is performed. -/
theorem normalize_phone_strips_exactly_separators (raw : String) :
    validate_phone_number raw =
      String.mk (raw.data.filter
        (fun c => c ∉ ([' ', '-', '(', ')'] : List Char))) :=
  validate_phone_eq_filter raw

/-- Counterexample to claim C7: for the unrecognized message type
"video" on an Individual target, the dispatcher does not produce the
outcome Failed "unhandled combination" — the source has no final else
branch and the entry is dropped with no action at all. -/
theorem unhandled_combination_silent_counterexample :
    (process_message [] {} { name := some "Ann", phone := some "+15551230000" }
      { type := some "video", content := some "clip", time := some "10:00" }
      false).1 ≠ DispatchOutcome.Failed "unhandled combination" ∧
    process_message [] {} { name := some "Ann", phone := some "+15551230000" }
      { type := some "video", content := some "clip", time := some "10:00" }
      false = (DispatchOutcome.NoOp, []) := by
  constructor
  · decide
  · rfl

/-- Claim C7 (amended): for every (target, message) combination whose
message type is neither "text" nor "image", the dispatcher makes zero
transport calls and signals nothing at all (no failure outcome, no log):
the entry is silently ignored. -/
theorem unrecognized_message_type_silently_ignored
    (fs : List String) (config : Config) (contact : ContactInfo)
    (msg : MessageInfo) (is_group : Bool) (ty : String)
    (hty : msg.type = some ty) (h1 : ty ≠ "text") (h2 : ty ≠ "image") :
    process_message fs config contact msg is_group =
      (DispatchOutcome.NoOp, []) := by
  cases is_group <;> simp [process_message, hty, h1, h2]

/-- Witness for amended claim C7: a message of type "video" for a group
target is silently ignored with zero transport calls. -/
theorem unrecognized_message_type_witness :
    process_message [] {} { name := some "Family Group" }
      { type := some "video", content := some "clip", time := some "10:00" }
      true = (DispatchOutcome.NoOp, []) :=
  unrecognized_message_type_silently_ignored [] {} { name := some "Family Group" }
    { type := some "video", content := some "clip", time := some "10:00" }
    true "video" rfl (by decide) (by decide)

/-- Claim C8: when the configuration source is absent, `load_config`
writes the documented sample configuration and yields the empty
configuration for the run, and `run_scheduler` then registers zero jobs
(its value is total, so the run does not crash). -/
theorem missing_config_writes_sample_and_schedules_zero_jobs :
    load_config ConfigSource.absent = (none, some sample_config) ∧
    run_scheduler ConfigSource.absent = [] :=
  ⟨rfl, rfl⟩

/-- Counterexample to claim C9: the phone string "()" is present and
non-empty, yet `validate_phone_number` maps it to the empty string, so
a present phone is NOT always non-empty after normalization. -/
theorem present_phone_normalizes_to_empty_counterexample :
    ("()" : String) ≠ "" ∧ validate_phone_number "()" = "" := by
  constructor
  · decide
  · rfl

/-- Claim C9 (amended): the normalized phone is non-empty iff the raw
phone contains at least one character other than space, hyphen and the
two parentheses; a present phone made up solely of those separator
characters normalizes to the empty string and is dispatched anyway. -/
theorem normalized_phone_nonempty_iff_has_kept_char (phone : String) :
    validate_phone_number phone ≠ "" ↔
      ∃ c ∈ phone.data, c ∉ ([' ', '-', '(', ')'] : List Char) := by
  rw [validate_phone_eq_filter]
  simp [String.ext_iff, List.filter_eq_nil_iff]

/-- Claim C10: for every configuration, `schedule_messages` registers
jobs exactly for the message entries whose time is present and
non-empty, in order and with every other entry untouched; entries with
a missing or empty time are passed over silently (the function is
total, so no error is raised), and the job count is the count of
entries with a non-empty time. -/
theorem empty_time_entries_silently_skipped (cfg : Config) :
    schedule_messages (some cfg) =
      (cfg.personal.flatMap fun c => (c.messages.filter hasTime).map fun m =>
        { contact := c, message := m, is_group := false,
          time_of_day := m.time.getD "" }) ++
      (cfg.groups.flatMap fun g => (g.messages.filter hasTime).map fun m =>
        { contact := g, message := m, is_group := true,
          time_of_day := m.time.getD "" }) ∧
    (schedule_messages (some cfg)).length =
      (cfg.personal.map fun c => c.messages.countP hasTime).sum +
      (cfg.groups.map fun g => g.messages.countP hasTime).sum := by
  have he : schedule_messages (some cfg) =
      (cfg.personal.flatMap fun c => (c.messages.filter hasTime).map fun m =>
        { contact := c, message := m, is_group := false,
          time_of_day := m.time.getD "" }) ++
      (cfg.groups.flatMap fun g => (g.messages.filter hasTime).map fun m =>
        { contact := g, message := m, is_group := true,
          time_of_day := m.time.getD "" }) := by
    simp only [schedule_messages]
    congr 1
    · exact flatMap_congr_local _ _ _ (fun c _ => filterMap_time_eq_filter_map _ _)
    · exact flatMap_congr_local _ _ _ (fun g _ => filterMap_time_eq_filter_map _ _)
  refine ⟨he, ?_⟩
  rw [he]
  simp [List.length_flatMap, Function.comp_def, List.countP_eq_length_filter]
